import Mathlib

/-!
Shallow embedding of the RaidProtect interaction-context resolver
(`src/raidprotect/src/interaction/context.rs`) and of the pending-component
cache model (`src/model/src/cache/model/component.rs`).

Discord snowflake identifiers (`Id<...Marker>` in the source) are modelled as
`Nat`. The external structures from `twilight_model` (raw events, users,
members) are modelled with exactly the fields the embedded code reads.
The guild-config accessor (`state.mongodb().get_guild_or_create`) is an
external collaborator; it is modelled as an oracle function passed to the
resolvers, and each resolver additionally returns the list of guild ids it
passed to the accessor, so that call-count properties are expressible.
-/

namespace RaidProtect

/-- Model of `twilight_model::user::User`, restricted to identity fields. -/
structure User where
  id : Nat
  name : String
deriving DecidableEq, Repr

/-- Model of `twilight_model::guild::PartialMember`: the code reads only the
embedded `user` field, the rest of the member is carried opaquely. -/
structure PartialMember where
  nick : Option String
  roles : List Nat
  user : Option User
deriving DecidableEq, Repr

/-- Modelled from the spec: the guild configuration sub-record
(`raidprotect_model::mongodb::guild::Config`, not under `src/`). -/
structure Config where
  moderation_channel : Option Nat
deriving DecidableEq, Repr

/-- Modelled from the spec: the guild configuration record
(`raidprotect_model::mongodb::guild::Guild`, not under `src/`): a guild
identifier plus a configuration sub-record. -/
structure Guild where
  id : Nat
  config : Config
deriving DecidableEq, Repr

/-- Opaque error produced by the guild config accessor (e.g. store
unavailable); the resolver never inspects it. -/
structure DbError where
  message : String
deriving DecidableEq, Repr

/-- Errors of the resolution paths. `missingField "member"` models
`anyhow!("missing member data")` and `missingField "user"` models
`anyhow!("missing user data")`; `dependencyError` models the propagated
failure of `get_guild_or_create` through the `?` operator. -/
inductive Error where
  | missingField (field : String)
  | dependencyError (err : DbError)
deriving DecidableEq, Repr

/-- Discriminator: is this error a missing-field validation error? -/
def Error.isMissingField : Error → Bool
  | .missingField _ => true
  | .dependencyError _ => false

/-- The guild config accessor `get_or_create`, as an oracle: a behaviour of
the external document store (modelled from the spec interface
`get_or_create(guild_id) -> GuildConfigRecord`, fallible). -/
def GuildDb : Type := Nat → Except DbError Guild

/-- Model of `twilight` command data (kind-specific payload). -/
structure CommandData where
  name : String
deriving DecidableEq, Repr

/-- Model of `twilight` message-component data (kind-specific payload). -/
structure MessageComponentInteractionData where
  custom_id : String
deriving DecidableEq, Repr

/-- Model of `twilight` modal-submit data (kind-specific payload). -/
structure ModalInteractionData where
  custom_id : String
deriving DecidableEq, Repr

/-- Model of `twilight_model::application::interaction::ApplicationCommand`,
restricted to the fields the resolver reads. -/
structure ApplicationCommand where
  id : Nat
  application_id : Nat
  token : String
  data : CommandData
  channel_id : Nat
  guild_id : Option Nat
  member : Option PartialMember
  user : Option User
  locale : String
deriving DecidableEq, Repr

/-- Model of `MessageComponentInteraction`, restricted to the fields read. -/
structure MessageComponentInteraction where
  id : Nat
  application_id : Nat
  token : String
  data : MessageComponentInteractionData
  channel_id : Nat
  guild_id : Option Nat
  member : Option PartialMember
  user : Option User
  locale : String
deriving DecidableEq, Repr

/-- Model of `ModalSubmitInteraction`, restricted to the fields read. -/
structure ModalSubmitInteraction where
  id : Nat
  application_id : Nat
  token : String
  data : ModalInteractionData
  channel_id : Nat
  guild_id : Option Nat
  member : Option PartialMember
  user : Option User
  locale : String
deriving DecidableEq, Repr

/-- `GuildContext`: additional context for commands triggered in a guild. -/
structure GuildContext where
  id : Nat
  guild : Guild
  member : PartialMember
deriving DecidableEq, Repr

/-- `InteractionContext<D>`: the resolved context, generic over the
kind-specific `data` payload. -/
structure InteractionContext (D : Type) where
  id : Nat
  application_id : Nat
  token : String
  data : D
  channel : Nat
  guild : Option GuildContext
  user : User
  locale : String

/-- Forget the kind-specific payload of a context, keeping every other
field; used to compare contexts produced from different event kinds. -/
def InteractionContext.forget {D : Type} (ctx : InteractionContext D) :
    InteractionContext Unit :=
  { id := ctx.id, application_id := ctx.application_id, token := ctx.token,
    data := (), channel := ctx.channel, guild := ctx.guild,
    user := ctx.user, locale := ctx.locale }

/-- `InteractionContext::from_guild_command`: sequentially checks member
presence, then the embedded user, then performs the single
`get_guild_or_create` call (recorded in the returned list). -/
def InteractionContext.from_guild_command (db : GuildDb)
    (command : ApplicationCommand) (guild_id : Nat) :
    Except Error (InteractionContext CommandData) × List Nat :=
  match command.member with
  | none => (Except.error (Error.missingField "member"), [])
  | some member =>
    match member.user with
    | none => (Except.error (Error.missingField "user"), [])
    | some user =>
      match db guild_id with
      | Except.error err => (Except.error (Error.dependencyError err), [guild_id])
      | Except.ok guild =>
        (Except.ok
          { id := command.id, application_id := command.application_id,
            token := command.token, data := command.data,
            channel := command.channel_id,
            guild := some { id := guild_id, guild := guild, member := member },
            user := user, locale := command.locale }, [guild_id])

/-- `InteractionContext::from_private_command`: requires the top-level user;
performs no accessor call. -/
def InteractionContext.from_private_command (command : ApplicationCommand) :
    Except Error (InteractionContext CommandData) × List Nat :=
  match command.user with
  | none => (Except.error (Error.missingField "user"), [])
  | some user =>
    (Except.ok
      { id := command.id, application_id := command.application_id,
        token := command.token, data := command.data,
        channel := command.channel_id, guild := none,
        user := user, locale := command.locale }, [])

/-- `InteractionContext::from_command`: dispatch on the guild id. -/
def InteractionContext.from_command (db : GuildDb)
    (command : ApplicationCommand) :
    Except Error (InteractionContext CommandData) × List Nat :=
  match command.guild_id with
  | some guild_id => InteractionContext.from_guild_command db command guild_id
  | none => InteractionContext.from_private_command command

/-- `InteractionContext::from_guild_component` (duplicated in the source,
similar to `from_guild_command`). -/
def InteractionContext.from_guild_component (db : GuildDb)
    (component : MessageComponentInteraction) (guild_id : Nat) :
    Except Error (InteractionContext MessageComponentInteractionData) × List Nat :=
  match component.member with
  | none => (Except.error (Error.missingField "member"), [])
  | some member =>
    match member.user with
    | none => (Except.error (Error.missingField "user"), [])
    | some user =>
      match db guild_id with
      | Except.error err => (Except.error (Error.dependencyError err), [guild_id])
      | Except.ok guild =>
        (Except.ok
          { id := component.id, application_id := component.application_id,
            token := component.token, data := component.data,
            channel := component.channel_id,
            guild := some { id := guild_id, guild := guild, member := member },
            user := user, locale := component.locale }, [guild_id])

/-- `InteractionContext::from_private_component`. -/
def InteractionContext.from_private_component
    (component : MessageComponentInteraction) :
    Except Error (InteractionContext MessageComponentInteractionData) × List Nat :=
  match component.user with
  | none => (Except.error (Error.missingField "user"), [])
  | some user =>
    (Except.ok
      { id := component.id, application_id := component.application_id,
        token := component.token, data := component.data,
        channel := component.channel_id, guild := none,
        user := user, locale := component.locale }, [])

/-- `InteractionContext::from_component`: dispatch on the guild id. -/
def InteractionContext.from_component (db : GuildDb)
    (component : MessageComponentInteraction) :
    Except Error (InteractionContext MessageComponentInteractionData) × List Nat :=
  match component.guild_id with
  | some guild_id => InteractionContext.from_guild_component db component guild_id
  | none => InteractionContext.from_private_component component

/-- `InteractionContext::from_guild_modal` (duplicated in the source,
similar to `from_guild_command`). -/
def InteractionContext.from_guild_modal (db : GuildDb)
    (modal : ModalSubmitInteraction) (guild_id : Nat) :
    Except Error (InteractionContext ModalInteractionData) × List Nat :=
  match modal.member with
  | none => (Except.error (Error.missingField "member"), [])
  | some member =>
    match member.user with
    | none => (Except.error (Error.missingField "user"), [])
    | some user =>
      match db guild_id with
      | Except.error err => (Except.error (Error.dependencyError err), [guild_id])
      | Except.ok guild =>
        (Except.ok
          { id := modal.id, application_id := modal.application_id,
            token := modal.token, data := modal.data,
            channel := modal.channel_id,
            guild := some { id := guild_id, guild := guild, member := member },
            user := user, locale := modal.locale }, [guild_id])

/-- `InteractionContext::from_private_modal`. -/
def InteractionContext.from_private_modal (modal : ModalSubmitInteraction) :
    Except Error (InteractionContext ModalInteractionData) × List Nat :=
  match modal.user with
  | none => (Except.error (Error.missingField "user"), [])
  | some user =>
    (Except.ok
      { id := modal.id, application_id := modal.application_id,
        token := modal.token, data := modal.data,
        channel := modal.channel_id, guild := none,
        user := user, locale := modal.locale }, [])

/-- `InteractionContext::from_modal`: dispatch on the guild id. -/
def InteractionContext.from_modal (db : GuildDb)
    (modal : ModalSubmitInteraction) :
    Except Error (InteractionContext ModalInteractionData) × List Nat :=
  match modal.guild_id with
  | some guild_id => InteractionContext.from_guild_modal db modal guild_id
  | none => InteractionContext.from_private_modal modal

/-- Modelled from the spec: the response payload stored by the
"post in chat" button (`twilight` `InteractionResponseData`, external
type); the store treats it opaquely, modelled here by an optional
message content. -/
structure InteractionResponseData where
  content : Option String
deriving DecidableEq, Repr

/-- Modelled from the spec: the sanction kind carried by a pending
sanction (`ModlogType`, defined in a module not under `src/`). -/
inductive ModlogType where
  | ban
  | kick
  | mute
  | warn
deriving DecidableEq, Repr

/-- `PostInChatButton`: state for the "post in chat" button. The
`author_id` is an `Id<UserMarker>` serialized through the `IdAsU64`
integer codec, modelled as `Nat`. -/
structure PostInChatButton where
  id : String
  response : InteractionResponseData
  author_id : Nat
deriving DecidableEq, Repr

/-- `PendingSanction`: state for a pending sanction. -/
structure PendingSanction where
  id : String
  kind : ModlogType
  user : User
deriving DecidableEq, Repr

/-- `PendingComponent`: tagged union over the two pending variants. -/
inductive PendingComponent where
  | postInChatButton (c : PostInChatButton)
  | sanction (c : PendingSanction)
deriving DecidableEq, Repr

/-- `PendingComponent::id`: the component unique identifier. -/
def PendingComponent.id : PendingComponent → String
  | .postInChatButton c => c.id
  | .sanction c => c.id

/-- `RedisModel::EXPIRES_AFTER` for `PendingComponent`: pending components
expire after 5 minutes. -/
def PendingComponent.EXPIRES_AFTER : Option Nat := some (5 * 60)

/-- `RedisModel::key_from` for `PendingComponent`:
`format!("pending:component:\x7bid\x7d")`. -/
def PendingComponent.key_from (id : String) : String :=
  "pending:component:" ++ id

/-- `RedisModel::key` for `PendingComponent`: `Self::key_from(self.id())`. -/
def PendingComponent.key (c : PendingComponent) : String :=
  PendingComponent.key_from c.id

/-- Serialization token: the serialized value is a flat token sequence
carrying strings and integers (the `IdAsU64` codec emits an integer). -/
inductive Token where
  | str (s : String)
  | num (n : Nat)
deriving DecidableEq, Repr

/-- Modelled from the spec: serde serialization of the response payload. -/
def serializeResponse : InteractionResponseData → List Token
  | { content := none } => [Token.num 0]
  | { content := some s } => [Token.num 1, Token.str s]

/-- Modelled from the spec: serde deserialization of the response payload. -/
def deserializeResponse : List Token → Option InteractionResponseData
  | [Token.num 0] => some { content := none }
  | [Token.num 1, Token.str s] => some { content := some s }
  | _ => none

/-- Modelled from the spec: integer discriminant of the sanction kind. -/
def modlogTag : ModlogType → Nat
  | .ban => 0
  | .kick => 1
  | .mute => 2
  | .warn => 3

/-- Modelled from the spec: sanction kind from its integer discriminant. -/
def modlogOfTag : Nat → Option ModlogType
  | 0 => some .ban
  | 1 => some .kick
  | 2 => some .mute
  | 3 => some .warn
  | _ => none

/-- Modelled from the spec: serde serialization of a `PendingComponent`,
emitting the variant tag followed by the variant's fields (the
`author_id` goes through the integer codec). -/
def serialize : PendingComponent → List Token
  | .postInChatButton c =>
    Token.str "PostInChatButton" :: Token.str c.id :: Token.num c.author_id
      :: serializeResponse c.response
  | .sanction c =>
    [Token.str "Sanction", Token.str c.id, Token.num (modlogTag c.kind),
      Token.num c.user.id, Token.str c.user.name]

/-- Modelled from the spec: serde deserialization of a `PendingComponent`,
dispatching on the stored variant tag. -/
def deserialize : List Token → Option PendingComponent
  | Token.str "PostInChatButton" :: Token.str i :: Token.num author :: rest =>
    match deserializeResponse rest with
    | some r =>
      some (.postInChatButton { id := i, response := r, author_id := author })
    | none => none
  | [Token.str "Sanction", Token.str i, Token.num tag, Token.num uid,
      Token.str uname] =>
    match modlogOfTag tag with
    | some k =>
      some (.sanction { id := i, kind := k, user := { id := uid, name := uname } })
    | none => none
  | _ => none

/-- The key-value store state: entries of key, serialized value, and
absolute expiry instant. -/
def Store : Type := List (String × List Token × Nat)

/-- Lookup of the first entry with a given key (the most recent write,
since `put` prepends). -/
def PendingStore.lookup : Store → String → Option (List Token × Nat)
  | [], _ => none
  | (k, v, e) :: rest, key =>
    if k == key then some (v, e) else PendingStore.lookup rest key

/-- Modelled from the spec: `put(component)` serializes the component under
key `"pending:component:" + component.id` with an attached expiration of
`EXPIRES_AFTER` seconds from the call time; the new entry shadows any
existing entry at the same key (last write wins). -/
def PendingStore.put (store : Store) (now : Nat) (c : PendingComponent) :
    Store :=
  (c.key, serialize c, now + PendingComponent.EXPIRES_AFTER.getD 0) :: store

/-- Modelled from the spec: `get(id)` looks up key `key_from(id)`,
deserializes the stored value into the correct variant using the stored
tag, and returns nothing if the key is absent or has expired. -/
def PendingStore.get (store : Store) (now : Nat) (id : String) :
    Option PendingComponent :=
  match PendingStore.lookup store (PendingComponent.key_from id) with
  | some (v, expiresAt) => if now < expiresAt then deserialize v else none
  | none => none

/-- Build an `ApplicationCommand` from its fields (used to state properties
about events sharing all fields but the payload). -/
def mkCommand (i app : Nat) (tok : String) (d : CommandData) (ch : Nat)
    (gid : Option Nat) (mem : Option PartialMember) (u : Option User)
    (loc : String) : ApplicationCommand :=
  { id := i, application_id := app, token := tok, data := d, channel_id := ch,
    guild_id := gid, member := mem, user := u, locale := loc }

/-- Build a `MessageComponentInteraction` from its fields. -/
def mkComponent (i app : Nat) (tok : String)
    (d : MessageComponentInteractionData) (ch : Nat) (gid : Option Nat)
    (mem : Option PartialMember) (u : Option User) (loc : String) :
    MessageComponentInteraction :=
  { id := i, application_id := app, token := tok, data := d, channel_id := ch,
    guild_id := gid, member := mem, user := u, locale := loc }

/-- Build a `ModalSubmitInteraction` from its fields. -/
def mkModal (i app : Nat) (tok : String) (d : ModalInteractionData) (ch : Nat)
    (gid : Option Nat) (mem : Option PartialMember) (u : Option User)
    (loc : String) : ModalSubmitInteraction :=
  { id := i, application_id := app, token := tok, data := d, channel_id := ch,
    guild_id := gid, member := mem, user := u, locale := loc }

/-! Helper lemmas shared between the claim theorems. -/

/-- The serde codec round-trips: deserializing a serialized pending
component recovers the original value, variant tag and all fields. -/
theorem serialize_roundtrip (c : PendingComponent) :
    deserialize (serialize c) = some c := by
  cases c with
  | postInChatButton b =>
    obtain ⟨i, r, a⟩ := b
    obtain ⟨content⟩ := r
    cases content <;> rfl
  | sanction s =>
    obtain ⟨i, k, u⟩ := s
    obtain ⟨uid, uname⟩ := u
    cases k <;> rfl

/-! Claim theorems. -/

/-- C7: `PendingComponent::id` returns exactly the embedded `id` field of
whichever variant the value is, not any derived value. -/
theorem c7_id_accessor :
    (∀ b : PostInChatButton, (PendingComponent.postInChatButton b).id = b.id)
    ∧ (∀ s : PendingSanction, (PendingComponent.sanction s).id = s.id) :=
  ⟨fun _ => rfl, fun _ => rfl⟩

/-- C8: for every pending component, the key computed on write equals the
key computed on lookup from the component's id, and both equal the string
`pending:component:` concatenated with the id. -/
theorem c8_key_format (c : PendingComponent) :
    PendingComponent.key c = PendingComponent.key_from c.id
    ∧ PendingComponent.key c = "pending:component:" ++ c.id :=
  ⟨rfl, rfl⟩

/-- C9: the expiration attached by every write is the fixed constant 300
seconds, the same for both variants, measured from the write time. -/
theorem c9_ttl_constant :
    PendingComponent.EXPIRES_AFTER = some 300
    ∧ (∀ (s : Store) (now : Nat) (b : PostInChatButton),
        PendingStore.put s now (PendingComponent.postInChatButton b)
          = ((PendingComponent.postInChatButton b).key,
              serialize (PendingComponent.postInChatButton b), now + 300) :: s)
    ∧ (∀ (s : Store) (now : Nat) (p : PendingSanction),
        PendingStore.put s now (PendingComponent.sanction p)
          = ((PendingComponent.sanction p).key,
              serialize (PendingComponent.sanction p), now + 300) :: s) :=
  ⟨rfl, fun _ _ _ => rfl, fun _ _ _ => rfl⟩

/-- C5: for every pending component of either variant, `put` followed by
`get` with the same id returns the stored value unchanged: variant tag and
every field (including the integer-encoded `author_id`) are preserved. -/
theorem c5_put_get_roundtrip (s : Store) (now : Nat) (c : PendingComponent) :
    PendingStore.get (PendingStore.put s now c) now c.id = some c := by
  show PendingStore.get
    ((c.key, serialize c, now + PendingComponent.EXPIRES_AFTER.getD 0) :: s)
    now c.id = some c
  unfold PendingStore.get PendingStore.lookup
  have hkey : (c.key == PendingComponent.key_from c.id) = true := by
    simp [PendingComponent.key]
  simp [hkey, serialize_roundtrip, PendingComponent.EXPIRES_AFTER]

/-- C2: for all three raw event kinds, resolving a guild-scoped event with
absent member data fails with `missingField "member"`; resolving a
guild-scoped event whose member lacks an embedded user fails with
`missingField "user"`; resolving a private event with no top-level user
fails with `missingField "user"`; in every case no context (and no
accessor call) is produced. -/
theorem c2_missing_field_errors :
    ∀ (db : GuildDb) (i app ch gid : Nat) (tok loc : String)
      (nick : Option String) (roles : List Nat) (mem : Option PartialMember)
      (u : Option User) (dc : CommandData)
      (de : MessageComponentInteractionData) (dm : ModalInteractionData),
      (InteractionContext.from_command db
          (mkCommand i app tok dc ch (some gid) none u loc)
        = (Except.error (Error.missingField "member"), []))
      ∧ (InteractionContext.from_command db
          (mkCommand i app tok dc ch (some gid)
            (some { nick := nick, roles := roles, user := none }) u loc)
        = (Except.error (Error.missingField "user"), []))
      ∧ (InteractionContext.from_command db
          (mkCommand i app tok dc ch none mem none loc)
        = (Except.error (Error.missingField "user"), []))
      ∧ (InteractionContext.from_component db
          (mkComponent i app tok de ch (some gid) none u loc)
        = (Except.error (Error.missingField "member"), []))
      ∧ (InteractionContext.from_component db
          (mkComponent i app tok de ch (some gid)
            (some { nick := nick, roles := roles, user := none }) u loc)
        = (Except.error (Error.missingField "user"), []))
      ∧ (InteractionContext.from_component db
          (mkComponent i app tok de ch none mem none loc)
        = (Except.error (Error.missingField "user"), []))
      ∧ (InteractionContext.from_modal db
          (mkModal i app tok dm ch (some gid) none u loc)
        = (Except.error (Error.missingField "member"), []))
      ∧ (InteractionContext.from_modal db
          (mkModal i app tok dm ch (some gid)
            (some { nick := nick, roles := roles, user := none }) u loc)
        = (Except.error (Error.missingField "user"), []))
      ∧ (InteractionContext.from_modal db
          (mkModal i app tok dm ch none mem none loc)
        = (Except.error (Error.missingField "user"), [])) :=
  fun _ _ _ _ _ _ _ _ _ _ _ _ _ _ =>
    ⟨rfl, rfl, rfl, rfl, rfl, rfl, rfl, rfl, rfl⟩

/-- C3: resolving a well-formed guild-scoped event calls the guild config
accessor exactly once, with the event's guild id; resolving a well-formed
private event calls it zero times — for all three event kinds. -/
theorem c3_accessor_call_count :
    ∀ (db : GuildDb) (i app ch gid : Nat) (tok loc : String)
      (nick : Option String) (roles : List Nat) (uu : User)
      (mem : Option PartialMember) (u : Option User) (dc : CommandData)
      (de : MessageComponentInteractionData) (dm : ModalInteractionData),
      ((InteractionContext.from_command db
          (mkCommand i app tok dc ch (some gid)
            (some { nick := nick, roles := roles, user := some uu }) u loc)).2
        = [gid])
      ∧ ((InteractionContext.from_command db
          (mkCommand i app tok dc ch none mem (some uu) loc)).2 = [])
      ∧ ((InteractionContext.from_component db
          (mkComponent i app tok de ch (some gid)
            (some { nick := nick, roles := roles, user := some uu }) u loc)).2
        = [gid])
      ∧ ((InteractionContext.from_component db
          (mkComponent i app tok de ch none mem (some uu) loc)).2 = [])
      ∧ ((InteractionContext.from_modal db
          (mkModal i app tok dm ch (some gid)
            (some { nick := nick, roles := roles, user := some uu }) u loc)).2
        = [gid])
      ∧ ((InteractionContext.from_modal db
          (mkModal i app tok dm ch none mem (some uu) loc)).2 = []) := by
  intro db i app ch gid tok loc nick roles uu mem u dc de dm
  refine ⟨?_, rfl, ?_, rfl, ?_, rfl⟩ <;>
    cases hdb : db gid <;>
      simp [mkCommand, mkComponent, mkModal, InteractionContext.from_command,
        InteractionContext.from_guild_command, InteractionContext.from_component,
        InteractionContext.from_guild_component, InteractionContext.from_modal,
        InteractionContext.from_guild_modal, hdb]

/-- C10: in each of the three guild-scoped paths the member-presence and
embedded-user checks run before the accessor is invoked: a validation
failure returns the error with an empty accessor call list, for every
accessor behaviour. -/
theorem c10_validation_before_accessor :
    ∀ (db : GuildDb) (i app ch gid : Nat) (tok loc : String)
      (nick : Option String) (roles : List Nat) (u : Option User)
      (dc : CommandData) (de : MessageComponentInteractionData)
      (dm : ModalInteractionData),
      ((InteractionContext.from_command db
          (mkCommand i app tok dc ch (some gid) none u loc)).2 = [])
      ∧ ((InteractionContext.from_command db
          (mkCommand i app tok dc ch (some gid)
            (some { nick := nick, roles := roles, user := none }) u loc)).2 = [])
      ∧ ((InteractionContext.from_component db
          (mkComponent i app tok de ch (some gid) none u loc)).2 = [])
      ∧ ((InteractionContext.from_component db
          (mkComponent i app tok de ch (some gid)
            (some { nick := nick, roles := roles, user := none }) u loc)).2 = [])
      ∧ ((InteractionContext.from_modal db
          (mkModal i app tok dm ch (some gid) none u loc)).2 = [])
      ∧ ((InteractionContext.from_modal db
          (mkModal i app tok dm ch (some gid)
            (some { nick := nick, roles := roles, user := none }) u loc)).2
        = []) :=
  fun _ _ _ _ _ _ _ _ _ _ _ _ _ => ⟨rfl, rfl, rfl, rfl, rfl, rfl⟩

/-- C1: for every raw event of any of the three kinds, a successful
resolution returns a context whose `guild` field is populated exactly when
the raw event carried a guild identifier (and `none` when it did not). -/
theorem c1_guild_iff :
    (∀ (db : GuildDb) (c : ApplicationCommand)
        (ctx : InteractionContext CommandData) (calls : List Nat),
      InteractionContext.from_command db c = (Except.ok ctx, calls) →
      ctx.guild.isSome = c.guild_id.isSome)
    ∧ (∀ (db : GuildDb) (c : MessageComponentInteraction)
        (ctx : InteractionContext MessageComponentInteractionData)
        (calls : List Nat),
      InteractionContext.from_component db c = (Except.ok ctx, calls) →
      ctx.guild.isSome = c.guild_id.isSome)
    ∧ (∀ (db : GuildDb) (c : ModalSubmitInteraction)
        (ctx : InteractionContext ModalInteractionData) (calls : List Nat),
      InteractionContext.from_modal db c = (Except.ok ctx, calls) →
      ctx.guild.isSome = c.guild_id.isSome) := by
  refine ⟨?_, ?_, ?_⟩ <;>
  · intro db c ctx calls h
    obtain ⟨i, app, tok, d, ch, gid, mem, u, loc⟩ := c
    cases gid with
    | none =>
      cases u with
      | none =>
        simp [InteractionContext.from_command,
          InteractionContext.from_private_command,
          InteractionContext.from_component,
          InteractionContext.from_private_component,
          InteractionContext.from_modal,
          InteractionContext.from_private_modal] at h
      | some uu =>
        simp [InteractionContext.from_command,
          InteractionContext.from_private_command,
          InteractionContext.from_component,
          InteractionContext.from_private_component,
          InteractionContext.from_modal,
          InteractionContext.from_private_modal] at h
        obtain ⟨hctx, -⟩ := h
        subst hctx
        rfl
    | some g =>
      cases mem with
      | none =>
        simp [InteractionContext.from_command,
          InteractionContext.from_guild_command,
          InteractionContext.from_component,
          InteractionContext.from_guild_component,
          InteractionContext.from_modal,
          InteractionContext.from_guild_modal] at h
      | some m =>
        obtain ⟨nick, roles, mu⟩ := m
        cases mu with
        | none =>
          simp [InteractionContext.from_command,
            InteractionContext.from_guild_command,
            InteractionContext.from_component,
            InteractionContext.from_guild_component,
            InteractionContext.from_modal,
            InteractionContext.from_guild_modal] at h
        | some uu =>
          cases hdb : db g with
          | error e =>
            simp [InteractionContext.from_command,
              InteractionContext.from_guild_command,
              InteractionContext.from_component,
              InteractionContext.from_guild_component,
              InteractionContext.from_modal,
              InteractionContext.from_guild_modal, hdb] at h
          | ok gld =>
            simp [InteractionContext.from_command,
              InteractionContext.from_guild_command,
              InteractionContext.from_component,
              InteractionContext.from_guild_component,
              InteractionContext.from_modal,
              InteractionContext.from_guild_modal, hdb] at h
            obtain ⟨hctx, -⟩ := h
            subst hctx
            rfl

/-- Witness for C1 at a concrete guild-scoped command resolution. -/
theorem c1_guild_iff_witness :
    ({ id := 1, application_id := 2, token := "t", data := { name := "ping" },
        channel := 3,
        guild := some
          { id := 4, guild := { id := 4, config := { moderation_channel := none } },
            member := { nick := none, roles := [],
                        user := some { id := 5, name := "u" } } },
        user := { id := 5, name := "u" },
        locale := "fr" } : InteractionContext CommandData).guild.isSome
      = (mkCommand 1 2 "t" { name := "ping" } 3 (some 4)
          (some { nick := none, roles := [], user := some { id := 5, name := "u" } })
          none "fr").guild_id.isSome :=
  c1_guild_iff.1
    (fun g => Except.ok { id := g, config := { moderation_channel := none } })
    (mkCommand 1 2 "t" { name := "ping" } 3 (some 4)
      (some { nick := none, roles := [], user := some { id := 5, name := "u" } })
      none "fr")
    _ [4] rfl

/-- C4: the three entry points implement one algorithm: on raw events that
agree on every shared field (id, application id, token, channel, guild id,
member, user, locale) they produce, for every accessor behaviour, results
that agree on every context field except the kind-specific payload, fail
with the same error under the same conditions, and make the same accessor
calls. -/
theorem c4_uniform_paths :
    ∀ (db : GuildDb) (i app ch : Nat) (tok loc : String) (gid : Option Nat)
      (mem : Option PartialMember) (u : Option User) (dc : CommandData)
      (de : MessageComponentInteractionData) (dm : ModalInteractionData),
      (((InteractionContext.from_command db
            (mkCommand i app tok dc ch gid mem u loc)).1.map
          InteractionContext.forget
        = (InteractionContext.from_component db
            (mkComponent i app tok de ch gid mem u loc)).1.map
          InteractionContext.forget)
      ∧ ((InteractionContext.from_command db
            (mkCommand i app tok dc ch gid mem u loc)).2
        = (InteractionContext.from_component db
            (mkComponent i app tok de ch gid mem u loc)).2))
      ∧ (((InteractionContext.from_command db
            (mkCommand i app tok dc ch gid mem u loc)).1.map
          InteractionContext.forget
        = (InteractionContext.from_modal db
            (mkModal i app tok dm ch gid mem u loc)).1.map
          InteractionContext.forget)
      ∧ ((InteractionContext.from_command db
            (mkCommand i app tok dc ch gid mem u loc)).2
        = (InteractionContext.from_modal db
            (mkModal i app tok dm ch gid mem u loc)).2)) := by
  intro db i app ch tok loc gid mem u dc de dm
  cases gid with
  | none =>
    cases u with
    | none => exact ⟨⟨rfl, rfl⟩, rfl, rfl⟩
    | some uu => exact ⟨⟨rfl, rfl⟩, rfl, rfl⟩
  | some g =>
    cases mem with
    | none => exact ⟨⟨rfl, rfl⟩, rfl, rfl⟩
    | some m =>
      obtain ⟨nick, roles, mu⟩ := m
      cases mu with
      | none => exact ⟨⟨rfl, rfl⟩, rfl, rfl⟩
      | some uu =>
        cases hdb : db g with
        | error e =>
          simp [mkCommand, mkComponent, mkModal,
            InteractionContext.from_command,
            InteractionContext.from_guild_command,
            InteractionContext.from_component,
            InteractionContext.from_guild_component,
            InteractionContext.from_modal,
            InteractionContext.from_guild_modal, hdb]
          exact ⟨rfl, rfl⟩
        | ok gld =>
          simp [mkCommand, mkComponent, mkModal,
            InteractionContext.from_command,
            InteractionContext.from_guild_command,
            InteractionContext.from_component,
            InteractionContext.from_guild_component,
            InteractionContext.from_modal,
            InteractionContext.from_guild_modal, hdb]
          exact ⟨rfl, rfl⟩

/-- C6: every `missingField` failure propagates unchanged through the
dispatching entry points (which are exactly the guild/private helpers on
the corresponding inputs); a failing accessor call surfaces as an opaque
`dependencyError` carrying that failure, which is never a `missingField`;
and in that failure case the result carries no context. -/
theorem c6_error_propagation :
    ∀ (db : GuildDb) (dberr : DbError) (i app ch gid : Nat)
      (tok loc : String) (nick : Option String) (roles : List Nat)
      (uu : User) (mem : Option PartialMember) (u : Option User)
      (dc : CommandData) (de : MessageComponentInteractionData)
      (dm : ModalInteractionData),
      (InteractionContext.from_command db
          (mkCommand i app tok dc ch (some gid) mem u loc)
        = InteractionContext.from_guild_command db
            (mkCommand i app tok dc ch (some gid) mem u loc) gid)
      ∧ (InteractionContext.from_command db
          (mkCommand i app tok dc ch none mem u loc)
        = InteractionContext.from_private_command
            (mkCommand i app tok dc ch none mem u loc))
      ∧ (InteractionContext.from_component db
          (mkComponent i app tok de ch (some gid) mem u loc)
        = InteractionContext.from_guild_component db
            (mkComponent i app tok de ch (some gid) mem u loc) gid)
      ∧ (InteractionContext.from_component db
          (mkComponent i app tok de ch none mem u loc)
        = InteractionContext.from_private_component
            (mkComponent i app tok de ch none mem u loc))
      ∧ (InteractionContext.from_modal db
          (mkModal i app tok dm ch (some gid) mem u loc)
        = InteractionContext.from_guild_modal db
            (mkModal i app tok dm ch (some gid) mem u loc) gid)
      ∧ (InteractionContext.from_modal db
          (mkModal i app tok dm ch none mem u loc)
        = InteractionContext.from_private_modal
            (mkModal i app tok dm ch none mem u loc))
      ∧ ((InteractionContext.from_command (fun _ => Except.error dberr)
          (mkCommand i app tok dc ch (some gid)
            (some { nick := nick, roles := roles, user := some uu }) u loc)).1
        = Except.error (Error.dependencyError dberr))
      ∧ ((InteractionContext.from_component (fun _ => Except.error dberr)
          (mkComponent i app tok de ch (some gid)
            (some { nick := nick, roles := roles, user := some uu }) u loc)).1
        = Except.error (Error.dependencyError dberr))
      ∧ ((InteractionContext.from_modal (fun _ => Except.error dberr)
          (mkModal i app tok dm ch (some gid)
            (some { nick := nick, roles := roles, user := some uu }) u loc)).1
        = Except.error (Error.dependencyError dberr))
      ∧ (Error.dependencyError dberr).isMissingField = false :=
  fun _ _ _ _ _ _ _ _ _ _ _ _ _ _ _ _ =>
    ⟨rfl, rfl, rfl, rfl, rfl, rfl, rfl, rfl, rfl, rfl⟩

end RaidProtect
